import Mathlib

/-!
Shallow embedding of `src/source/conf.py` of the OLSRT repository: a Sphinx
documentation-build configuration module consisting solely of top-level
assignments of string / list / mapping literals to configuration names.

Each configuration name is embedded as a Lean constant of the corresponding
value, translated directly from the assignment in the source.  The module as a
whole is additionally embedded as an ordered list of assignment statements
together with a small interpreter (`runStmts`) that executes the assignments
in order against an initial environment, mirroring Python's sequential
execution of top-level assignments into the module's global namespace (a later
assignment to the same name would shadow an earlier one; lookup finds the most
recent binding).
-/

namespace OLSRT

/-- `project = 'OLSRT'` (conf.py line 9). -/
def project : String := "OLSRT"

/-- `copyright = '2025, OverLab Group'` (conf.py line 10). -/
def copyright : String := "2025, OverLab Group"

/-- `author = 'OverLab Group'` (conf.py line 11). -/
def author : String := "OverLab Group"

/-- `release = 'v1.0.1'` (conf.py line 12). -/
def release : String := "v1.0.1"

/-- `extensions = ['breathe', 'sphinx.ext.todo', 'sphinx.ext.coverage',
'sphinx.ext.viewcode', 'sphinx.ext.intersphinx']` (conf.py lines 17-23). -/
def extensions : List String :=
  ["breathe",
   "sphinx.ext.todo",
   "sphinx.ext.coverage",
   "sphinx.ext.viewcode",
   "sphinx.ext.intersphinx"]

/-- `templates_path = ['_templates']` (conf.py line 25). -/
def templates_path : List String := ["_templates"]

/-- `exclude_patterns = []` (conf.py line 26). -/
def exclude_patterns : List String := []

/-- `html_theme = 'furo'` (conf.py line 33). -/
def html_theme : String := "furo"

/-- `html_static_path = ['_static']` (conf.py line 34). -/
def html_static_path : List String := ["_static"]

/-- `html_title = 'OLSRT Documention'` (conf.py line 35). -/
def html_title : String := "OLSRT Documention"

/-- `breathe_projects = { "OLSRT": "./xml" }` (conf.py line 37), a Python
dict embedded as an association list of its entries in source order. -/
def breathe_projects : List (String × String) := [("OLSRT", "./xml")]

/-- `breathe_default_project = "OLSRT"` (conf.py line 38). -/
def breathe_default_project : String := "OLSRT"

/-- The five documentation-generator plugin identifiers the claim set treats
as recognized: the Breathe API-doc bridge and the four stock
`sphinx.ext.*` extensions named in the spec. -/
def recognizedExtensions : List String :=
  ["breathe",
   "sphinx.ext.todo",
   "sphinx.ext.coverage",
   "sphinx.ext.viewcode",
   "sphinx.ext.intersphinx"]

/-- A configuration value occurring in conf.py: a string literal, a list of
string literals, or a dict from strings to strings. -/
inductive ConfValue where
  | str (s : String)
  | strList (l : List String)
  | strMap (m : List (String × String))
deriving DecidableEq, Repr

/-- One top-level assignment statement `name = literal` of the module. -/
structure Stmt where
  name : String
  value : ConfValue
deriving DecidableEq, Repr

/-- The module body of conf.py: its twelve top-level assignments, in source
order, each binding a configuration name to a literal value. -/
def confModule : List Stmt :=
  [⟨"project", .str project⟩,
   ⟨"copyright", .str copyright⟩,
   ⟨"author", .str author⟩,
   ⟨"release", .str release⟩,
   ⟨"extensions", .strList extensions⟩,
   ⟨"templates_path", .strList templates_path⟩,
   ⟨"exclude_patterns", .strList exclude_patterns⟩,
   ⟨"html_theme", .str html_theme⟩,
   ⟨"html_static_path", .strList html_static_path⟩,
   ⟨"html_title", .str html_title⟩,
   ⟨"breathe_projects", .strMap breathe_projects⟩,
   ⟨"breathe_default_project", .str breathe_default_project⟩]

/-- Execute a list of assignment statements in order against an initial
environment.  Each assignment pushes its binding; lookup (below) finds the
most recent binding, so later assignments shadow earlier ones, as in
Python's module namespace. -/
def runStmts (stmts : List Stmt) (init : List (String × ConfValue)) :
    List (String × ConfValue) :=
  stmts.foldl (fun env s => (s.name, s.value) :: env) init

/-- Evaluate the conf.py module from the empty environment. -/
def runModule : List (String × ConfValue) :=
  runStmts confModule []

/-- Look up the current binding of a name in an environment. -/
def lookupEnv (env : List (String × ConfValue)) (k : String) :
    Option ConfValue :=
  (env.find? (fun p => p.1 == k)).map Prod.snd

end OLSRT

namespace OLSRT

/-- C1: `breathe_default_project` equals `"OLSRT"` and that string is a key
of the `breathe_projects` mapping, so the default-project pointer points
into the mapping. -/
theorem breathe_default_project_is_key :
    breathe_default_project = "OLSRT" ∧
    breathe_default_project ∈ breathe_projects.map Prod.fst := by
  decide

/-- C2: the `extensions` value is a list of exactly five identifiers, every
element is one of the five recognized documentation-generator plugin
identifiers, and each recognized identifier appears exactly once in it. -/
theorem extensions_recognized_exactly_once :
    extensions.length = 5 ∧
    (∀ e ∈ extensions, e ∈ recognizedExtensions) ∧
    (∀ e ∈ recognizedExtensions, extensions.count e = 1) := by
  decide

/-- C3: `breathe_projects` is a dictionary whose only entry maps the string
`"OLSRT"` to the directory string `"./xml"`. -/
theorem breathe_projects_single_entry :
    breathe_projects = [("OLSRT", "./xml")] := by
  rfl

/-- C4: the four project-identity configuration values are the plain string
literals `'OLSRT'`, `'2025, OverLab Group'`, `'OverLab Group'` and
`'v1.0.1'`. -/
theorem project_identity_strings :
    project = "OLSRT" ∧
    copyright = "2025, OverLab Group" ∧
    author = "OverLab Group" ∧
    release = "v1.0.1" := by
  exact ⟨rfl, rfl, rfl, rfl⟩

/-- C5: the exclusion-pattern setting is the empty list. -/
theorem exclude_patterns_empty :
    exclude_patterns = [] := by
  rfl

/-- C6: the template-directory and static-asset-directory settings are each
a singleton list of one relative path string. -/
theorem path_settings_singletons :
    templates_path = ["_templates"] ∧
    html_static_path = ["_static"] := by
  exact ⟨rfl, rfl⟩

/-- C7: the configuration is a pure, immutable constant record: every
configuration name in the module is bound exactly once (the statement names
are pairwise distinct, so no binding is ever reassigned or mutated),
evaluating the module binds each name to exactly its literal value, and the
final value of every configuration name is independent of the initial
environment the module is evaluated in — any two evaluations agree on every
configuration key. -/
theorem conf_pure_constant_record :
    (confModule.map Stmt.name).Nodup ∧
    (∀ s ∈ confModule, lookupEnv runModule s.name = some s.value) ∧
    (∀ init₁ init₂ : List (String × ConfValue), ∀ s ∈ confModule,
        lookupEnv (runStmts confModule init₁) s.name
          = lookupEnv (runStmts confModule init₂) s.name) := by
  refine ⟨by decide, by decide, ?_⟩
  intro init₁ init₂ s hs
  fin_cases hs <;> rfl

/-- Witness for C7: evaluating the module from a nonempty initial
environment and from the empty one yields the same binding for
`html_theme`. -/
theorem conf_pure_constant_record_witness :
    lookupEnv (runStmts confModule [("html_theme", ConfValue.str "alabaster")])
        "html_theme"
      = lookupEnv (runStmts confModule []) "html_theme" :=
  conf_pure_constant_record.2.2
    [("html_theme", ConfValue.str "alabaster")] []
    ⟨"html_theme", ConfValue.str "furo"⟩ (by decide)

/-- C8: name-consistency invariant: `project`, `breathe_default_project`
and the unique key of `breathe_projects` are all the identical string
`"OLSRT"`, and `html_title` begins with that same string. -/
theorem name_consistency_invariant :
    project = "OLSRT" ∧
    breathe_default_project = project ∧
    breathe_projects.map Prod.fst = [project] ∧
    project.data.isPrefixOf html_title.data = true := by
  decide

/-- C9: the HTML theme is `'furo'` and the page title is the literal
`'OLSRT Documention'` (with "Documentation" misspelled), not
`'OLSRT Documentation'`. -/
theorem html_theme_and_misspelled_title :
    html_theme = "furo" ∧
    html_title = "OLSRT Documention" ∧
    html_title ≠ "OLSRT Documentation" := by
  decide

/-- C10: `'breathe'` is the first element (index 0) of the `extensions`
list, and every later element is one of the four `sphinx.ext.*`
extensions, so the API-doc bridge is listed before them. -/
theorem breathe_listed_first :
    extensions[0]? = some "breathe" ∧
    ∀ e ∈ extensions.tail, "sphinx.ext.".data.isPrefixOf e.data = true := by
  decide

end OLSRT
